import Mathlib

/-!
Verification development for the JawiAI backend (src/backend/ingest.py and
src/backend/app.py): a shallow embedding of the knowledge compiler and of the
retrieval-and-prompt-assembly decision engine, with theorems settling the
spec's claims about exact-match lookup, the semantic relevance threshold,
prompt assembly, validation, and error handling.

Python strings are modelled as Lean `String`; the handful of `str` methods the
code uses (`lower`, `strip`, `replace`, `split('.')[0]`, `startswith`) are
modelled on the underlying character lists so that every definition evaluates
inside the kernel.  `float` distances are modelled as `ℚ`.  The external
collaborators (embedding model plus FAISS index, and the generation service)
enter as explicit parameters: the pair "encode then search with k = 1" is a
function from the search string to one (distance, identifier) pair, and the
generation round trip is a value of `DelegateResult` describing how the call
went.
-/

namespace Jawi

/-- Python `s.lower()` (ASCII case folding), as used on search terms and on
extracted letter names. -/
def lowerStr (s : String) : String := ⟨s.data.map Char.toLower⟩

/-- Python `s.strip()`: drop leading and trailing whitespace. -/
def stripStr (s : String) : String :=
  ⟨((s.data.dropWhile Char.isWhitespace).reverse.dropWhile Char.isWhitespace).reverse⟩

/-- Left-to-right, non-overlapping replacement of the pattern on character
lists, structured on a fuel argument so the kernel can evaluate it; with fuel
at least the length of the text and a non-empty pattern it is Python's
`s.replace(pat, rep)`. -/
def replaceListAux (pat rep : List Char) : Nat → List Char → List Char
  | 0, s => s
  | _ + 1, [] => []
  | fuel + 1, c :: rest =>
    if pat.isPrefixOf (c :: rest) ∧ pat ≠ [] then
      rep ++ replaceListAux pat rep fuel (rest.drop (pat.length - 1))
    else
      c :: replaceListAux pat rep fuel rest

/-- Python `s.replace(pat, rep)` for a non-empty pattern. -/
def replaceStr (pat rep s : String) : String :=
  ⟨replaceListAux pat.data rep.data s.data.length s.data⟩

/-- Python `s.split('.')[0]`: the text before the first `'.'` (the whole
string when it has no `'.'`). -/
def firstSegment (s : String) : String :=
  ⟨s.data.takeWhile (fun c => c ≠ '.')⟩

/-- Python `s.startswith(pre)`. -/
def startsWithStr (pre s : String) : Bool := pre.data.isPrefixOf s.data

/-! ## ingest.py — the knowledge compiler -/

/-- One record of `jawi_knowledge.json`.  A JSON object is modelled by the
fields the script reads; a field the object lacks is `none`.  `item['k']`
is a `match` that fails (Python `KeyError`) on `none`; `item.get('k', '')`
is `Option.getD ""`. -/
structure Item where
  type : Option String := none
  topic : Option String := none
  content : Option String := none
  name : Option String := none
  character : Option String := none
  info : Option String := none
  latin_example : Option String := none
  jawi_example : Option String := none
deriving DecidableEq

/-- The body of the `for item in knowledge_base` loop of ingest.py (lines
25–37): a `general_topic` record is flattened with `item['topic']` and
`item['content']` (a missing one raises `KeyError`), a `letter` record with
`item['name']` and `item['info']` required and `character`, `latin_example`,
`jawi_example` defaulted to the empty string, and any other `type` value
appends nothing.  `.ok none` is "no document", `.error` is an uncaught
exception. -/
def flattenItem (item : Item) : Except String (Option String) :=
  if item.type = some "general_topic" then
    match item.topic with
    | none => .error "KeyError: 'topic'"
    | some topic =>
      match item.content with
      | none => .error "KeyError: 'content'"
      | some content => .ok (some ("Topic: " ++ topic ++ ". Explanation: " ++ content))
  else if item.type = some "letter" then
    match item.name with
    | none => .error "KeyError: 'name'"
    | some name =>
      match item.info with
      | none => .error "KeyError: 'info'"
      | some info =>
        .ok (some ("Letter name: " ++ name ++
          ". Jawi character form: " ++ item.character.getD "" ++
          ". Info: " ++ info ++
          " Example word in Latin is '" ++ item.latin_example.getD "" ++
          "' and in Jawi is '" ++ item.jawi_example.getD "" ++ "'."))
  else .ok none

/-- The whole ingestion loop: flatten the records in order into the
`documents` list, aborting the batch at the first uncaught `KeyError`. -/
def flattenAll : List Item → Except String (List String)
  | [] => .ok []
  | item :: rest =>
    match flattenItem item with
    | .error e => .error e
    | .ok none => flattenAll rest
    | .ok (some doc) =>
      match flattenAll rest with
      | .error e => .error e
      | .ok docs => .ok (doc :: docs)

/-! ## app.py — startup state -/

/-- app.py line 30: the FAISS L2 distance cutoff. -/
def RELEVANCE_THRESHOLD : ℚ := 1

/-- app.py line 23. -/
def MODEL_NAME : String := "vllm-qwen3"

/-- app.py line 47: `doc.startswith("Letter name:")`. -/
def isLetterDoc (doc : String) : Bool := startsWithStr "Letter name:" doc

/-- app.py line 50: `doc.split('.')[0].replace("Letter name: ", "").strip().lower()`. -/
def extractName (doc : String) : String :=
  lowerStr (stripStr (replaceStr "Letter name: " "" (firstSegment doc)))

/-- The `(name, doc)` assignments the startup loop (app.py lines 46–53)
performs, in document order. -/
def lookupPairs (documents : List String) : List (String × String) :=
  (documents.filter isLetterDoc).map (fun doc => (extractName doc, doc))

/-- `document_lookup.get(key)` for the dictionary built at startup: the last
assignment to a key wins, so search the assignments from the most recent. -/
def document_lookup_get (documents : List String) (key : String) : Option String :=
  (((lookupPairs documents).reverse.find? (fun p => p.1 == key)).map Prod.snd)

/-! ## app.py — the /chat endpoint -/

/-- One `{role, content}` entry of a messages list. -/
structure Message where
  role : String
  content : String
deriving DecidableEq

/-- The JSON payload posted to the generation service. -/
structure Payload where
  model : String
  messages : List Message
  max_tokens : Nat
  temperature : ℚ
deriving DecidableEq

/-- The spec's RetrievalOutcome, tagging which branch of the hybrid retrieval
(app.py lines 95–111) set `retrieved_context`. -/
inductive RetrievalOutcome where
  | exactMatch (doc : String)
  | semanticMatch (doc : String) (distance : ℚ)
  | noMatch
deriving DecidableEq

/-- The `retrieved_context` variable the outcome stands for (`none` is Python
`None`). -/
def RetrievalOutcome.doc? : RetrievalOutcome → Option String
  | .exactMatch doc => some doc
  | .semanticMatch doc _ => some doc
  | .noMatch => none

/-- The parsed body of a /chat request: `data.get('query')`,
`data.get('history', [])`, `data.get('context')`. -/
structure ChatRequest where
  query : Option String
  history : List Message
  context : Option String
deriving DecidableEq

/-- Python truthiness of an optional string: `None` and `""` are falsy. -/
def truthy : Option String → Bool
  | none => false
  | some s => !(s == "")

/-- app.py line 86: `search_query = initial_context if initial_context else
user_query`. -/
def searchTerm (req : ChatRequest) : String :=
  if truthy req.context then req.context.getD "" else req.query.getD ""

/-- app.py line 90: `search_query.lower().strip()`. -/
def normalizeQuery (s : String) : String := stripStr (lowerStr s)

/-- The hybrid retrieval of app.py lines 90–111.  `search` is the composite
external collaborator "encode the search term, then query the FAISS index
with k = 1", returning the single (distance, identifier) pair; it is consulted
only in the `else` branch of the exact-match test.  Python's
`documents[indices[0][0]]` is modelled total as `getD`: under the startup
positional contract the FAISS identifier always indexes the loaded document
list, so the default is unreachable. -/
def retrievalOutcome (documents : List String) (search : String → ℚ × Nat)
    (search_query : String) : RetrievalOutcome :=
  match document_lookup_get documents (normalizeQuery search_query) with
  | some doc => .exactMatch doc
  | none =>
    if (search search_query).1 ≤ RELEVANCE_THRESHOLD then
      .semanticMatch (documents.getD (search search_query).2 "") (search search_query).1
    else .noMatch

/-- app.py lines 122–127: the factual-mode system prompt. -/
def factualSystemPrompt : String :=
  "You are JawiAI, an intelligent and precise AI assistant for the Jawi Script. Follow these rules strictly:\n1.  **Grounding Rule:** Your answers MUST be based ONLY on the provided 'Context' and the 'Conversation History'. Do not invent information.\n2.  **Formatting Rule:** When giving an example, you MUST use the format: Latin (Jawi).\n3.  **Follow-up Rule:** If the user asks for 'another' or 'more', provide another example or detail related to the last topic.\n4.  **Repetition Handling Rule:** If you find yourself out of new examples from the 'Context', you MUST offer to switch to a creative mode. For example, say: \"I have no more examples for that in my knowledge base. Would you like me to try to **create a new example** for you?\"\n5.  **Fallback Rule:** If you cannot answer the question based on the provided context or history, state that you do not have that information."

/-- app.py line 152: the guarded (clarification) system prompt of the
fallback mode. -/
def guardedSystemPrompt : String :=
  "You are JawiAI, an assistant that ONLY discusses the Jawi script. The user's message seems unclear or off-topic. Politely inform the user that you can only answer questions about the Jawi script and ask them to clarify their question about Jawi."

/-- app.py line 133: `f"Context:\n---\n{retrieved_context}\n---\n\nQuestion:
{user_query}"`, grouped so the text before the question is one prefix. -/
def groundedUserContent (retrieved_context user_query : String) : String :=
  ("Context:\n---\n" ++ retrieved_context ++ "\n---\n\nQuestion: ") ++ user_query

/-- app.py lines 119–141: the factual-mode payload. -/
def groundedPayload (retrieved_context user_query : String)
    (chat_history : List Message) : Payload :=
  { model := MODEL_NAME
  , messages := ⟨"system", factualSystemPrompt⟩ ::
      (chat_history ++ [⟨"user", groundedUserContent retrieved_context user_query⟩])
  , max_tokens := 300
  , temperature := 1/2 }

/-- app.py lines 147–159: the guarded generative (fallback) payload. -/
def fallbackPayload (user_query : String) (chat_history : List Message) : Payload :=
  { model := MODEL_NAME
  , messages := ⟨"system", guardedSystemPrompt⟩ ::
      (chat_history ++ [⟨"user", user_query⟩])
  , max_tokens := 1024
  , temperature := 7/10 }

/-- app.py lines 115–159: `if retrieved_context:` — the payload branch tests
Python truthiness of `retrieved_context`, so `None` and the empty string both
select the fallback payload. -/
def assemblePayload (retrieved_context : Option String) (user_query : String)
    (chat_history : List Message) : Payload :=
  if truthy retrieved_context then
    groundedPayload (retrieved_context.getD "") user_query chat_history
  else
    fallbackPayload user_query chat_history

/-- The /chat handler up to the point where the payload is handed to the
generation delegate (app.py lines 71–159): validation of the query, search-term
selection, hybrid retrieval, and prompt assembly.  `.error` is the early
`jsonify({"error": "Query not found"}), 400` return. -/
def chat (documents : List String) (search : String → ℚ × Nat) (req : ChatRequest) :
    Except (String × Nat) (RetrievalOutcome × Payload) :=
  if truthy req.query = false then .error ("Query not found", 400)
  else
    let outcome := retrievalOutcome documents search (searchTerm req)
    .ok (outcome, assemblePayload outcome.doc? (req.query.getD "") req.history)

/-- The retrieval outcome of a /chat request (`none` when the request fails
validation). -/
def chatOutcome (documents : List String) (search : String → ℚ × Nat)
    (req : ChatRequest) : Option RetrievalOutcome :=
  match chat documents search req with
  | .ok p => some p.1
  | .error _ => none

/-- The assembled payload of a /chat request (`none` when the request fails
validation). -/
def chatPayload? (documents : List String) (search : String → ℚ × Nat)
    (req : ChatRequest) : Option Payload :=
  match chat documents search req with
  | .ok p => some p.2
  | .error _ => none

/-! ## app.py — the /chat-creative endpoint -/

/-- app.py lines 190–194: the creative prompt template (a triple-quoted
f-string, newlines and indentation included), grouped so the text before the
closing quote is one prefix. -/
def creativePrompt (user_query : String) : String :=
  ("\n    You are a creative Jawi language teacher. Fulfill the user's request creatively. Include both Latin and Jawi script whenever possible.\n    Request: \"" ++ user_query) ++
    "\"\n    Your Creative Answer:\n    "

/-- app.py lines 198–203: the creative-mode payload. -/
def creativePayload (user_query : String) : Payload :=
  { model := MODEL_NAME
  , messages := [⟨"user", creativePrompt user_query⟩]
  , max_tokens := 150
  , temperature := 4/5 }

/-- The /chat-creative handler up to the delegate call (app.py lines
185–203). -/
def chatCreative (query : Option String) : Except (String × Nat) Payload :=
  if truthy query = false then .error ("Query not found", 400)
  else .ok (creativePayload (query.getD ""))

/-! ## app.py — the generation round trip (lines 162–176 and 195–211) -/

/-- `response_data['choices'][i]['message']`, with `content` possibly
absent. -/
structure ChoiceMessage where
  content : Option String
deriving DecidableEq

/-- One entry of `response_data['choices']`, with `message` possibly
absent. -/
structure Choice where
  message : Option ChoiceMessage
deriving DecidableEq

/-- The parsed JSON body of a delegate response, with `choices` possibly
absent. -/
structure ResponseBody where
  choices : Option (List Choice)
deriving DecidableEq

/-- How the `requests.post` round trip went: an exception in flight (network
error or timeout), a non-2xx status (`raise_for_status`), or a parsed JSON
body. -/
inductive DelegateResult where
  | transportError (msg : String)
  | httpError (status : Nat) (msg : String)
  | responseOk (body : ResponseBody)
deriving DecidableEq

/-- `response_data['choices'][0]['message']['content']`: each missing key or
index raises, modelled as `.error` with the exception text. -/
def extractContent (body : ResponseBody) : Except String String :=
  match body.choices with
  | none => .error "KeyError: 'choices'"
  | some choices =>
    match choices with
    | [] => .error "IndexError: list index out of range"
    | choice :: _ =>
      match choice.message with
      | none => .error "KeyError: 'message'"
      | some msg =>
        match msg.content with
        | none => .error "KeyError: 'content'"
        | some s => .ok s

/-- The shared `try/except` body of both endpoints: a successful, well-shaped
response is returned stripped as `{"response": …}`; any exception — transport,
status, or shape — is caught and returned as `{"error": str(e)}, 500`. -/
def handleDelegate (result : DelegateResult) : Except (String × Nat) String :=
  match result with
  | .transportError msg => .error (msg, 500)
  | .httpError _ msg => .error (msg, 500)
  | .responseOk body =>
    match extractContent body with
    | .error e => .error (e, 500)
    | .ok s => .ok (stripStr s)

/-- Whether the generation round trip counts as failed: an exception in
flight, a bad status, or a response without the expected
`choices[0].message.content` shape. -/
def DelegateResult.isFailure : DelegateResult → Bool
  | .transportError _ => true
  | .httpError _ _ => true
  | .responseOk body =>
    match extractContent body with
    | .error _ => true
    | .ok _ => false

/-! ## Helper lemmas -/

/-- The last message of `system :: history ++ [user]` is the final user
turn. -/
theorem getLast?_system_history_user (m x : Message) (h : List Message) :
    (m :: (h ++ [x])).getLast? = some x := by
  rw [← List.cons_append, List.getLast?_concat]

/-- The fallback payload forwards the user query, unmodified, as the final
turn. -/
theorem fallbackPayload_getLast (user_query : String) (h : List Message) :
    (fallbackPayload user_query h).messages.getLast? = some ⟨"user", user_query⟩ :=
  getLast?_system_history_user _ _ _

/-- The grounded payload forwards the context block plus the user query as
the final turn. -/
theorem groundedPayload_getLast (ctx user_query : String) (h : List Message) :
    (groundedPayload ctx user_query h).messages.getLast? =
      some ⟨"user", groundedUserContent ctx user_query⟩ :=
  getLast?_system_history_user _ _ _

/-! ## Claims -/

/-- C1: for every /chat query whose search term, after lower-casing and
stripping, is a key of the exact-match dictionary, the retrieval outcome is
`exactMatch` of the document that key maps to, and the semantic branch is
never executed — the handler's result is the same under any search
collaborator whatsoever. -/
theorem C1_exact_match_short_circuit (documents : List String)
    (s s' : String → ℚ × Nat) (req : ChatRequest) (doc : String)
    (hq : truthy req.query = true)
    (hk : document_lookup_get documents (normalizeQuery (searchTerm req)) = some doc) :
    chatOutcome documents s req = some (.exactMatch doc) ∧
    chat documents s req = chat documents s' req := by
  have ho : ∀ s0 : String → ℚ × Nat,
      retrievalOutcome documents s0 (searchTerm req) = .exactMatch doc := by
    intro s0
    simp only [retrievalOutcome, hk]
  have hq' : ¬ truthy req.query = false := by simp [hq]
  constructor
  · simp only [chatOutcome, chat, if_neg hq', ho s]
  · simp only [chat, if_neg hq', ho s, ho s']

/-- C1 witness: the letter document for "Ba" is retrieved by the padded,
cased query " BA " through exact lookup, whatever the search collaborator
returns. -/
theorem C1_exact_match_short_circuit_witness :
    truthy (some " BA ") = true ∧
    document_lookup_get ["Letter name: Ba. Info: x."]
      (normalizeQuery (searchTerm ⟨some " BA ", [], none⟩)) =
      some "Letter name: Ba. Info: x." ∧
    chatOutcome ["Letter name: Ba. Info: x."] (fun _ => ((2 : ℚ), 0))
      ⟨some " BA ", [], none⟩ = some (.exactMatch "Letter name: Ba. Info: x.") :=
  ⟨rfl, by decide,
    (C1_exact_match_short_circuit ["Letter name: Ba. Info: x."]
      (fun _ => ((2 : ℚ), 0)) (fun _ => ((3 : ℚ), 1)) ⟨some " BA ", [], none⟩
      "Letter name: Ba. Info: x." (by decide) (by decide)).1⟩

/-- C2: with no exact match, a nearest-neighbour distance at most the
relevance threshold yields `semanticMatch` of the document at the returned
identifier, and a distance above it yields `noMatch` with the guarded
fallback payload. -/
theorem C2_semantic_threshold (documents : List String) (s : String → ℚ × Nat)
    (req : ChatRequest)
    (hq : truthy req.query = true)
    (hmiss : document_lookup_get documents (normalizeQuery (searchTerm req)) = none) :
    ((s (searchTerm req)).1 ≤ RELEVANCE_THRESHOLD →
      chatOutcome documents s req =
        some (.semanticMatch (documents.getD (s (searchTerm req)).2 "")
          (s (searchTerm req)).1)) ∧
    (RELEVANCE_THRESHOLD < (s (searchTerm req)).1 →
      chatOutcome documents s req = some .noMatch ∧
      chatPayload? documents s req =
        some (fallbackPayload (req.query.getD "") req.history)) := by
  have hq' : ¬ truthy req.query = false := by simp [hq]
  constructor
  · intro hle
    simp only [chatOutcome, chat, if_neg hq', retrievalOutcome, hmiss, if_pos hle]
  · intro hlt
    have hnle : ¬ (s (searchTerm req)).1 ≤ RELEVANCE_THRESHOLD := not_le.mpr hlt
    refine ⟨?_, ?_⟩
    · simp only [chatOutcome, chat, if_neg hq', retrievalOutcome, hmiss, if_neg hnle]
    · simp only [chatPayload?, chat, if_neg hq', retrievalOutcome, hmiss, if_neg hnle]
      simp [assemblePayload, RetrievalOutcome.doc?, truthy]

/-- C2 witness: against a one-topic corpus, the query "hello" misses the
dictionary; a collaborator distance of 1/2 yields the semantic match of
document 0, and a distance of 2 yields `noMatch` with the fallback payload. -/
theorem C2_semantic_threshold_witness :
    document_lookup_get ["Topic: T. Explanation: E."]
      (normalizeQuery (searchTerm ⟨some "hello", [], none⟩)) = none ∧
    chatOutcome ["Topic: T. Explanation: E."] (fun _ => ((1 : ℚ)/2, 0))
      ⟨some "hello", [], none⟩ =
      some (.semanticMatch "Topic: T. Explanation: E." (1/2)) ∧
    (chatOutcome ["Topic: T. Explanation: E."] (fun _ => ((2 : ℚ), 0))
      ⟨some "hello", [], none⟩ = some .noMatch ∧
     chatPayload? ["Topic: T. Explanation: E."] (fun _ => ((2 : ℚ), 0))
      ⟨some "hello", [], none⟩ = some (fallbackPayload "hello" [])) :=
  ⟨by decide,
    (C2_semantic_threshold ["Topic: T. Explanation: E."] (fun _ => ((1 : ℚ)/2, 0))
      ⟨some "hello", [], none⟩ (by decide) (by decide)).1
      (by norm_num [RELEVANCE_THRESHOLD]),
    (C2_semantic_threshold ["Topic: T. Explanation: E."] (fun _ => ((2 : ℚ), 0))
      ⟨some "hello", [], none⟩ (by decide) (by decide)).2
      (by norm_num [RELEVANCE_THRESHOLD])⟩

/-- C3: with a non-empty context hint, retrieval runs on the hint, yet the
final turn forwarded to generation carries the original raw query text
verbatim (as the suffix after the assembled prefix), never the hint in the
question position. -/
theorem C3_hint_searches_raw_question_forwarded (documents : List String)
    (s : String → ℚ × Nat) (req : ChatRequest) (c : String)
    (hq : truthy req.query = true)
    (hc : req.context = some c) (hne : c ≠ "") :
    searchTerm req = c ∧
    ∃ p, chat documents s req = .ok (retrievalOutcome documents s c, p) ∧
      ∃ pre, p.messages.getLast? = some ⟨"user", pre ++ req.query.getD ""⟩ := by
  have hct : truthy (some c) = true := by simp [truthy, hne]
  have hst : searchTerm req = c := by simp [searchTerm, hc, hct]
  have hq' : ¬ truthy req.query = false := by simp [hq]
  refine ⟨hst, assemblePayload (retrievalOutcome documents s c).doc?
    (req.query.getD "") req.history, ?_, ?_⟩
  · simp only [chat, if_neg hq', hst]
  · rcases ho : (retrievalOutcome documents s c).doc? with _ | ctx
    · refine ⟨"", ?_⟩
      rw [String.empty_append]
      simp only [assemblePayload, truthy, Bool.false_eq_true, if_false]
      exact fallbackPayload_getLast _ _
    · by_cases hce : ctx = ""
      · refine ⟨"", ?_⟩
        rw [String.empty_append]
        subst hce
        simp only [assemblePayload, truthy, beq_self_eq_true, Bool.not_true,
          Bool.false_eq_true, if_false]
        exact fallbackPayload_getLast _ _
      · refine ⟨"Context:\n---\n" ++ ctx ++ "\n---\n\nQuestion: ", ?_⟩
        have htr : truthy (some ctx) = true := by simp [truthy, hce]
        simp only [assemblePayload, htr, if_true, Option.getD_some]
        exact groundedPayload_getLast _ _ _

/-- C3 witness: a request whose query is "what is this" and whose hint is
"ba" searches on "ba" while the forwarded final turn still ends in
"what is this". -/
theorem C3_hint_searches_raw_question_forwarded_witness :
    truthy (some "what is this") = true ∧
    (⟨some "what is this", [], some "ba"⟩ : ChatRequest).context = some "ba" ∧
    "ba" ≠ "" ∧
    searchTerm ⟨some "what is this", [], some "ba"⟩ = "ba" :=
  ⟨rfl, rfl, by decide,
    (C3_hint_searches_raw_question_forwarded [] (fun _ => ((2 : ℚ), 0))
      ⟨some "what is this", [], some "ba"⟩ "ba" rfl rfl (by decide)).1⟩

/-- C7: flatten is exactly the fixed per-variant template — the
`general_topic` template, the `letter` template with the optional fields
rendered by `get(…, '')` in place, and no document for any other type
discriminant. -/
theorem C7_flatten_fixed_templates :
    (∀ item topic content, item.type = some "general_topic" →
      item.topic = some topic → item.content = some content →
      flattenItem item = .ok (some ("Topic: " ++ topic ++ ". Explanation: " ++ content))) ∧
    (∀ item nm inf, item.type = some "letter" →
      item.name = some nm → item.info = some inf →
      flattenItem item = .ok (some ("Letter name: " ++ nm ++
        ". Jawi character form: " ++ item.character.getD "" ++
        ". Info: " ++ inf ++
        " Example word in Latin is '" ++ item.latin_example.getD "" ++
        "' and in Jawi is '" ++ item.jawi_example.getD "" ++ "'."))) ∧
    (∀ item, item.type ≠ some "general_topic" → item.type ≠ some "letter" →
      flattenItem item = .ok none) := by
  refine ⟨?_, ?_, ?_⟩
  · intro item topic content h1 h2 h3
    simp [flattenItem, h1, h2, h3]
  · intro item nm inf h1 h2 h3
    simp [flattenItem, h1, h2, h3]
  · intro item h1 h2
    simp [flattenItem, h1, h2]

/-- C7 witness: a letter record with every optional field absent renders them
as empty text in place, and an unrecognized type produces no document. -/
theorem C7_flatten_fixed_templates_witness :
    flattenItem { type := some "letter", name := some "Ba", info := some "Info here." } =
      .ok (some ("Letter name: " ++ "Ba" ++ ". Jawi character form: " ++ "" ++
        ". Info: " ++ "Info here." ++ " Example word in Latin is '" ++ "" ++
        "' and in Jawi is '" ++ "" ++ "'.")) ∧
    flattenItem { type := some "skill" } = .ok none :=
  ⟨C7_flatten_fixed_templates.2.1 _ "Ba" "Info here." rfl rfl rfl,
   C7_flatten_fixed_templates.2.2 _ (by decide) (by decide)⟩

/-- C8: the generation parameters are fixed per mode — grounded 0.5/300,
guarded fallback 0.7/1024, creative 0.8/150 — so temperature strictly
increases grounded < fallback < creative while the creative cap is the
smallest of the three. -/
theorem C8_generation_parameters (ctx q : String) (hist : List Message) :
    (groundedPayload ctx q hist).temperature = 1/2 ∧
    (groundedPayload ctx q hist).max_tokens = 300 ∧
    (fallbackPayload q hist).temperature = 7/10 ∧
    (fallbackPayload q hist).max_tokens = 1024 ∧
    (creativePayload q).temperature = 4/5 ∧
    (creativePayload q).max_tokens = 150 ∧
    (groundedPayload ctx q hist).temperature < (fallbackPayload q hist).temperature ∧
    (fallbackPayload q hist).temperature < (creativePayload q).temperature ∧
    (creativePayload q).max_tokens < (groundedPayload ctx q hist).max_tokens ∧
    (creativePayload q).max_tokens < (fallbackPayload q hist).max_tokens := by
  refine ⟨rfl, rfl, rfl, rfl, rfl, rfl, ?_, ?_, ?_, ?_⟩ <;>
    norm_num [groundedPayload, fallbackPayload, creativePayload]

/-- C9: every failure of the generation round trip — transport error, bad
status, or malformed response shape — is returned as a 500 error carrying a
diagnostic message, never as a success response. -/
theorem C9_delegate_failure_isolated (r : DelegateResult)
    (h : r.isFailure = true) :
    (∃ msg, handleDelegate r = .error (msg, 500)) ∧
    ∀ s, handleDelegate r ≠ .ok s := by
  cases r with
  | transportError msg =>
    exact ⟨⟨msg, rfl⟩, fun s hcon => by simp [handleDelegate] at hcon⟩
  | httpError status msg =>
    exact ⟨⟨msg, rfl⟩, fun s hcon => by simp [handleDelegate] at hcon⟩
  | responseOk body =>
    cases hx : extractContent body with
    | error e =>
      refine ⟨⟨e, ?_⟩, fun s hcon => ?_⟩ <;> simp [handleDelegate, hx] at *
    | ok s =>
      exfalso
      simp [DelegateResult.isFailure, hx] at h

/-- C9 witness: a timed-out round trip is returned as a 500 error and is not
replaced by any success response. -/
theorem C9_delegate_failure_isolated_witness :
    DelegateResult.isFailure (.transportError "timeout") = true ∧
    ((∃ msg, handleDelegate (.transportError "timeout") = .error (msg, 500)) ∧
      ∀ s, handleDelegate (.transportError "timeout") ≠ .ok s) :=
  ⟨rfl, C9_delegate_failure_isolated (.transportError "timeout") rfl⟩

/-- C10: the retrieval outcome of /chat, and the generation temperature and
token cap it selects, are independent of the conversation history; only the
assembled message list can differ between two requests that share query and
hint. -/
theorem C10_history_independent_retrieval (documents : List String)
    (s : String → ℚ × Nat) (q c : Option String) (h1 h2 : List Message) :
    chatOutcome documents s ⟨q, h1, c⟩ = chatOutcome documents s ⟨q, h2, c⟩ ∧
    (chatPayload? documents s ⟨q, h1, c⟩).map Payload.temperature =
      (chatPayload? documents s ⟨q, h2, c⟩).map Payload.temperature ∧
    (chatPayload? documents s ⟨q, h1, c⟩).map Payload.max_tokens =
      (chatPayload? documents s ⟨q, h2, c⟩).map Payload.max_tokens := by
  have hpay : ∀ (r : Option String) (uq : String),
      (assemblePayload r uq h1).temperature = (assemblePayload r uq h2).temperature ∧
      (assemblePayload r uq h1).max_tokens = (assemblePayload r uq h2).max_tokens := by
    intro r uq
    unfold assemblePayload
    cases truthy r <;> simp [groundedPayload, fallbackPayload]
  by_cases hq : truthy q = false
  · simp [chatOutcome, chatPayload?, chat, hq]
  · have htq : truthy q = true := by simpa using hq
    simp only [chatOutcome, chatPayload?, chat, searchTerm, htq, Bool.true_eq_false,
      if_false, Option.map_some']
    exact ⟨trivial, congrArg some (hpay _ _).1, congrArg some (hpay _ _).2⟩

/-- C4 counterexample: the first record lacks the required field `content`
for its `general_topic` template, so ingestion raises `KeyError` and aborts
the whole batch — the second, well-formed record is never emitted — instead
of rendering the missing field as empty text. -/
theorem C4_counterexample_missing_required_aborts :
    flattenAll [{ type := some "general_topic", topic := some "Writing" },
                { type := some "letter", name := some "Ba", info := some "x" }] =
      .error "KeyError: 'content'" := rfl

/-- C4 (amended): only the optional letter fields (`character`,
`latin_example`, `jawi_example`) render as empty text when missing; a record
missing a field the template reads with bracket access (`topic`, `content`,
`name`, `info`) raises `KeyError` and aborts the batch. -/
theorem C4_missing_fields_policy :
    (∀ nm inf, flattenItem { type := some "letter", name := some nm, info := some inf } =
      .ok (some ("Letter name: " ++ nm ++ ". Jawi character form: " ++ "" ++
        ". Info: " ++ inf ++ " Example word in Latin is '" ++ "" ++
        "' and in Jawi is '" ++ "" ++ "'."))) ∧
    (∀ item rest, item.type = some "general_topic" → item.topic = none →
      flattenAll (item :: rest) = .error "KeyError: 'topic'") ∧
    (∀ item rest topic, item.type = some "general_topic" → item.topic = some topic →
      item.content = none → flattenAll (item :: rest) = .error "KeyError: 'content'") ∧
    (∀ item rest, item.type = some "letter" → item.name = none →
      flattenAll (item :: rest) = .error "KeyError: 'name'") ∧
    (∀ item rest nm, item.type = some "letter" → item.name = some nm →
      item.info = none → flattenAll (item :: rest) = .error "KeyError: 'info'") := by
  refine ⟨fun nm inf => rfl, ?_, ?_, ?_, ?_⟩
  · intro item rest h1 h2
    simp [flattenAll, flattenItem, h1, h2]
  · intro item rest topic h1 h2 h3
    simp [flattenAll, flattenItem, h1, h2, h3]
  · intro item rest h1 h2
    simp [flattenAll, flattenItem, h1, h2]
  · intro item rest nm h1 h2 h3
    simp [flattenAll, flattenItem, h1, h2, h3]

/-- C4 amended witness: a letter record with no optional fields still emits a
document with empty text in place, and a record missing any of the four
required fields — `topic`, `content`, `name`, `info` — aborts the batch with
the corresponding `KeyError`. -/
theorem C4_missing_fields_policy_witness :
    flattenItem { type := some "letter", name := some "Ba", info := some "x" } =
      .ok (some ("Letter name: " ++ "Ba" ++ ". Jawi character form: " ++ "" ++
        ". Info: " ++ "x" ++ " Example word in Latin is '" ++ "" ++
        "' and in Jawi is '" ++ "" ++ "'.")) ∧
    flattenAll [{ type := some "general_topic" }] = .error "KeyError: 'topic'" ∧
    flattenAll [{ type := some "general_topic", topic := some "T" }] =
      .error "KeyError: 'content'" ∧
    flattenAll [{ type := some "letter" }] = .error "KeyError: 'name'" ∧
    flattenAll [{ type := some "letter", name := some "Ba" }] =
      .error "KeyError: 'info'" :=
  ⟨C4_missing_fields_policy.1 "Ba" "x",
   C4_missing_fields_policy.2.1 _ [] rfl rfl,
   C4_missing_fields_policy.2.2.1 _ [] "T" rfl rfl rfl,
   C4_missing_fields_policy.2.2.2.1 _ [] rfl rfl,
   C4_missing_fields_policy.2.2.2.2 _ [] "Ba" rfl rfl rfl⟩

/-- C5 counterexample: the query " " normalizes to the empty string, yet the
request is not rejected — `if not user_query` sees a truthy string — and
retrieval runs: the handler result even depends on what the semantic
collaborator answers, so semantic search is reached. -/
theorem C5_counterexample_whitespace_query_not_rejected :
    normalizeQuery " " = "" ∧
    chat [] (fun _ => ((2 : ℚ), 0)) ⟨some " ", [], none⟩ =
      .ok (.noMatch, fallbackPayload " " []) ∧
    chat [] (fun _ => ((0 : ℚ), 0)) ⟨some " ", [], none⟩ =
      .ok (.semanticMatch "" 0, fallbackPayload " " []) :=
  ⟨rfl, rfl, rfl⟩

/-- C5 (amended): validation tests Python truthiness of the raw query field —
a missing or empty `query` is rejected with the 400 validation error before
retrieval or generation, but any non-empty query text, including
whitespace-only text that normalizes to the empty string, proceeds to
retrieval. -/
theorem C5_validation_on_raw_query (documents : List String)
    (s : String → ℚ × Nat) (hist : List Message) (c : Option String) :
    chat documents s ⟨none, hist, c⟩ = .error ("Query not found", 400) ∧
    chat documents s ⟨some "", hist, c⟩ = .error ("Query not found", 400) ∧
    ∀ q : String, q ≠ "" →
      chat documents s ⟨some q, hist, c⟩ =
        .ok (retrievalOutcome documents s (searchTerm ⟨some q, hist, c⟩),
          assemblePayload
            (retrievalOutcome documents s (searchTerm ⟨some q, hist, c⟩)).doc?
            q hist) := by
  refine ⟨rfl, rfl, fun q hq => ?_⟩
  have htq : truthy (some q) = true := by simp [truthy, hq]
  simp [chat, htq]

/-- C5 amended witness: the whitespace-only query " " is non-empty, so the
request reaches retrieval instead of being rejected. -/
theorem C5_validation_on_raw_query_witness :
    " " ≠ "" ∧
    chat [] (fun _ => ((2 : ℚ), 0)) ⟨some " ", [], none⟩ =
      .ok (retrievalOutcome [] (fun _ => ((2 : ℚ), 0))
          (searchTerm ⟨some " ", [], none⟩),
        assemblePayload
          (retrievalOutcome [] (fun _ => ((2 : ℚ), 0))
            (searchTerm ⟨some " ", [], none⟩)).doc? " " []) :=
  ⟨by decide,
   (C5_validation_on_raw_query [] (fun _ => ((2 : ℚ), 0)) [] none).2.2 " " (by decide)⟩

/-- The two-record knowledge base whose letter names differ only in casing:
both flatten to documents whose extracted, normalized key is "ba". -/
def collideKb : List Item :=
  [{ type := some "letter", name := some "Ba", info := some "first" },
   { type := some "letter", name := some "ba", info := some "second" }]

/-- The document flattened from the first `collideKb` record. -/
def collideDocA : String :=
  "Letter name: Ba. Jawi character form: . Info: first Example word in Latin is '' and in Jawi is ''."

/-- The document flattened from the second `collideKb` record. -/
def collideDocB : String :=
  "Letter name: ba. Jawi character form: . Info: second Example word in Latin is '' and in Jawi is ''."

/-- C6 counterexample: two letter records whose names normalize to the same
key; the dictionary keeps only the last assignment, so looking up the first
document's extracted key returns the other document, not the same one. -/
theorem C6_counterexample_key_collision :
    flattenAll collideKb = .ok [collideDocA, collideDocB] ∧
    isLetterDoc collideDocA = true ∧
    extractName collideDocA = extractName collideDocB ∧
    document_lookup_get [collideDocA, collideDocB] (extractName collideDocA) =
      some collideDocB ∧
    collideDocB ≠ collideDocA :=
  ⟨rfl, rfl, rfl, by decide, by decide⟩

/-- C6 (amended): lookup at a letter document's extracted key returns the
last letter document carrying that key, so whenever no other letter document
in the sequence shares the key — extraction is injective there — every letter
document round-trips to itself. -/
theorem C6_roundtrip_unique_keys (documents : List String) (d : String)
    (hd : d ∈ documents) (hl : isLetterDoc d = true)
    (huniq : ∀ d' ∈ documents, isLetterDoc d' = true →
      extractName d' = extractName d → d' = d) :
    document_lookup_get documents (extractName d) = some d := by
  unfold document_lookup_get
  have hmem : (extractName d, d) ∈ (lookupPairs documents).reverse := by
    rw [List.mem_reverse]
    exact List.mem_map.mpr ⟨d, List.mem_filter.mpr ⟨hd, hl⟩, rfl⟩
  have hsome : ((lookupPairs documents).reverse.find?
      (fun p => p.1 == extractName d)).isSome :=
    List.find?_isSome.mpr ⟨(extractName d, d), hmem, by simp⟩
  obtain ⟨p, hp⟩ := Option.isSome_iff_exists.mp hsome
  have hpk : p.1 = extractName d := by simpa using List.find?_some hp
  have hpmem : p ∈ lookupPairs documents := by
    have := List.mem_of_find?_eq_some hp
    rwa [List.mem_reverse] at this
  obtain ⟨d', hd', hpd⟩ := List.mem_map.mp hpmem
  have hd'docs : d' ∈ documents := (List.mem_filter.mp hd').1
  have hd'letter : isLetterDoc d' = true := by
    simpa using (List.mem_filter.mp hd').2
  have hkey : extractName d' = extractName d := by
    rw [← hpd] at hpk
    exact hpk
  have hdd : d' = d := huniq d' hd'docs hd'letter hkey
  rw [hp]
  simp only [Option.map_some']
  rw [← hpd]
  simp [hdd]

/-- C6 amended witness: with a single letter document — its key shared by no
other — the round trip returns that same document. -/
theorem C6_roundtrip_unique_keys_witness :
    collideDocA ∈ [collideDocA] ∧ isLetterDoc collideDocA = true ∧
    document_lookup_get [collideDocA] (extractName collideDocA) = some collideDocA :=
  ⟨List.mem_singleton.mpr rfl, rfl,
   C6_roundtrip_unique_keys [collideDocA] collideDocA
     (List.mem_singleton.mpr rfl) rfl (by decide)⟩

end Jawi
